import Mathlib

/-!
# Verification of `src/pyautogui/Main.py` (line-repeater utility)

Shallow embedding of the script as pure trace-producing functions.
Every externally visible action of the program (keystroke injection,
sleeps, dialog mutations, process exit) is recorded as an `Event`;
each Python function is embedded as a Lean function returning the list
of events it performs, in order.  Delays are in seconds, as exact
rationals (`time.sleep(2)` ↦ `.sleep 2`, `delay=0.5` ↦ `.sleep (1/2)`).
User interaction with the modal dialog is an explicit input
(`UserAction`): pressing Cancel, or pressing Submit with the text
currently in the field.
-/

/-- One externally visible action of the program. -/
inductive Event where
  /-- `pyautogui.typewrite` types one character of its argument, with the
      given inter-character interval in seconds. -/
  | typeChar (c : Char) (interval : ℚ)
  /-- `pyautogui.press(k)`: a single plain key press. -/
  | press (k : String)
  /-- `pyautogui.hotkey(m, k)`: a combined modifier+key press. -/
  | hotkey (m k : String)
  /-- `time.sleep(s)`, `s` in seconds. -/
  | sleep (s : ℚ)
  /-- A Tk window is created with this title and label message. -/
  | openPrompt (title msg : String)
  /-- `status_label.config(text=s)`. -/
  | setStatus (s : String)
  /-- `root.update()`. -/
  | update
  /-- `.destroy()` on a named child widget (`"b1"`, `"b2"`, `"res"`). -/
  | destroyWidget (name : String)
  /-- `root.destroy()`. -/
  | destroyRoot
  /-- `messagebox.showinfo(title, msg)`. -/
  | showInfo (title msg : String)
  /-- `sys.exit()`: the process terminates here. -/
  | sysExit
  /-- An uncaught `ValueError` (e.g. from `int()` on a non-numeric
      string): the process crashes here. -/
  | valueError
  deriving DecidableEq, Repr

/-- How the user acts on one modal prompt: press Cancel, or press Submit
with the given field content. -/
inductive UserAction where
  | cancel
  | submit (text : String)
  deriving DecidableEq, Repr

/-- The inner `cancel_click` handler: destroys the buttons and the text
field, sleeps 2 s, shows "Exiting Application...", updates, sleeps 2 s,
destroys the window and exits the process. -/
def cancel_click : List Event :=
  [ .destroyWidget "b1", .destroyWidget "b2", .destroyWidget "res",
    .sleep 2,
    .setStatus "Exiting Application...", .update,
    .sleep 2,
    .destroyRoot, .sysExit ]

/-- The inner `submit_click` handler, given the text `result` read from
the field.  Returns the events performed and the value stored into the
global `input_value` (`none` when the process exited instead; the code
after the `cancel_click()` call is unreachable because `sys.exit`
raises). -/
def submit_click (result : String) : List Event × Option String :=
  if result = "" then
    ([ .destroyWidget "res", .destroyWidget "b1", .destroyWidget "b2",
       .setStatus "No Value Submitted", .update ] ++ cancel_click, none)
  else
    ([ .destroyWidget "res", .destroyWidget "b1", .destroyWidget "b2",
       .setStatus ("Submitted value: " ++ result), .update,
       .sleep 2, .destroyRoot ], some result)

/-- `get_input_from_tk_window(Title, Message)`: builds the dialog, runs
its event loop until the user acts (`act`), and returns the submitted
value (`none` when the process exited on the cancel / empty path). -/
def get_input_from_tk_window (Title : String := "Application Main Window")
    (Message : String := "Enter the value:") (act : UserAction) :
    List Event × Option String :=
  match act with
  | .cancel => (.openPrompt Title Message :: cancel_click, none)
  | .submit s =>
      (.openPrompt Title Message :: (submit_click s).1, (submit_click s).2)

/-- `repeat_line(line, times, delay=0, key="enter")`: `for i in
range(0, times)`: type `line` with 0.1 s per-character interval, then the
submit action selected by `key`, then sleep `delay`.  `range(0, times)`
has `times.toNat` elements (empty for `times ≤ 0`). -/
def repeat_line (line : String) (times : Int) (delay : ℚ := 0)
    (key : String := "enter") : List Event :=
  (List.range times.toNat).flatMap fun _ =>
    (line.data.map fun c => Event.typeChar c (1/10)) ++
    (if key = "enter" then [Event.press "enter"]
     else if key = "shift+enter" then [Event.hotkey "shift" "enter"]
     else []) ++
    [Event.sleep delay]

/-- Python's built-in `int()` applied to a string: an optional sign
followed by one or more decimal digits (surrounding whitespace and digit
underscores, which Python also tolerates, do not occur here and are not
modelled).  `none` where Python raises `ValueError`. -/
def str_to_int (s : String) : Option Int :=
  let digits : List Char → Option Nat := fun t =>
    if t ≠ [] ∧ t.all Char.isDigit then
      some (t.foldl (fun a c => a * 10 + (c.toNat - 48)) 0)
    else none
  match s.data with
  | '-' :: rest => (digits rest).map fun n => -(n : Int)
  | '+' :: rest => (digits rest).map fun n => (n : Int)
  | l => (digits l).map fun n => (n : Int)

/-- `line_repeater(wait_before_start=10)`: prompt for the line, prompt
for the count, acknowledge with a message box embedding the raw count
string, sleep the countdown, then `repeat_line(line, int(times),
delay=0.5, key="shift+enter")`.  The two `UserAction`s are the user's
responses to the two prompts. -/
def line_repeater (lineAct timesAct : UserAction)
    (wait_before_start : ℚ := 10) : List Event :=
  let p1 := get_input_from_tk_window "Line Repeator" "Enter the line:" lineAct
  match p1.2 with
  | none => p1.1
  | some line =>
    let p2 := get_input_from_tk_window "Line Repeator"
      "Enter the number of times to be repeated:" timesAct
    match p2.2 with
    | none => p1.1 ++ p2.1
    | some times =>
      p1.1 ++ p2.1 ++
      Event.showInfo "Line Repeator"
        ("The line will be repeated " ++ times ++
         " times. Please switch to the target application and click on the text box to start the process in " ++
         toString wait_before_start ++ " Seconds.") ::
      Event.sleep wait_before_start ::
      (match str_to_int times with
       | none => [Event.valueError]
       | some n => repeat_line line n (1/2) "shift+enter")

/-- The `if __name__ == "__main__":` entry point:
`line_repeater(wait_before_start=7)`. -/
def main_trace (lineAct timesAct : UserAction) : List Event :=
  line_repeater lineAct timesAct 7

/-! ## Classifying events, for counting -/

/-- A character-type action. -/
def isCharAction : Event → Bool
  | .typeChar _ _ => true
  | _ => false

/-- A plain press of the `enter` key. -/
def isPressEnter : Event → Bool
  | .press "enter" => true
  | _ => false

/-- The combined `shift`+`enter` hotkey action. -/
def isShiftEnter : Event → Bool
  | .hotkey "shift" "enter" => true
  | _ => false

/-- Any submit-key action: a plain key press or a modifier+key hotkey. -/
def isSubmitAction : Event → Bool
  | .press _ => true
  | .hotkey _ _ => true
  | _ => false

/-- Any keystroke-injection action (character typing or submit key). -/
def isKeystroke (e : Event) : Bool :=
  isCharAction e || isSubmitAction e

/-- The user cancelled the prompt, or submitted it with empty text. -/
def cancelsPrompt : UserAction → Bool
  | .cancel => true
  | .submit s => s = ""

/-- The delays slept immediately after each submit-key action of a trace:
the value `d` of a `sleep d` event directly following a press/hotkey. -/
def interIterationDelays : List Event → List ℚ
  | [] => []
  | e :: rest =>
      (if isSubmitAction e then
        match rest with
        | Event.sleep d :: _ => [d]
        | _ => []
      else []) ++ interIterationDelays rest

/-! ## Helper lemmas -/

/-- A `for`-loop emitting the same body each iteration, as a flattened
replicate. -/
lemma flatMap_range_const (l : List Event) (n : Nat) :
    ((List.range n).flatMap fun _ => l) = (List.replicate n l).flatten := by
  induction n with
  | zero => simp
  | succ n ih =>
      rw [List.range_succ, List.flatMap_append, ih, List.replicate_succ']
      simp

lemma countP_flatten_replicate (p : Event → Bool) (l : List Event) (n : Nat) :
    ((List.replicate n l).flatten.countP p) = n * l.countP p := by
  induction n with
  | zero => simp
  | succ n ih =>
      rw [List.replicate_succ, List.flatten_cons, List.countP_append, ih,
        Nat.succ_mul]
      ring

lemma filter_flatten_replicate (p : Event → Bool) (l : List Event) (n : Nat) :
    ((List.replicate n l).flatten.filter p) =
      (List.replicate n (l.filter p)).flatten := by
  induction n with
  | zero => simp
  | succ n ih => simp [List.replicate_succ, ih]

lemma flatten_replicate_singleton (x : Event) (n : Nat) :
    (List.replicate n [x]).flatten = List.replicate n x := by
  induction n with
  | zero => rfl
  | succ n ih => simp [List.replicate_succ, ih]

lemma countP_char_map (r : ℚ) (l : List Char) :
    ((l.map fun c => Event.typeChar c r).countP isCharAction) = l.length := by
  rw [List.countP_map]
  simp [Function.comp, isCharAction]

lemma countP_submit_char_map (r : ℚ) (l : List Char) :
    ((l.map fun c => Event.typeChar c r).countP isSubmitAction) = 0 := by
  rw [List.countP_map]
  simp [Function.comp, isSubmitAction]

lemma countP_press_char_map (r : ℚ) (l : List Char) :
    ((l.map fun c => Event.typeChar c r).countP isPressEnter) = 0 := by
  rw [List.countP_map]
  simp [Function.comp, isPressEnter]

lemma filter_submit_char_map (r : ℚ) (l : List Char) :
    ((l.map fun c => Event.typeChar c r).filter isSubmitAction) = [] := by
  induction l with
  | nil => rfl
  | cons c l ih => simp [isSubmitAction, ih]

lemma string_data_length (s : String) : s.data.length = s.length := rfl

/-! ## C1, C4, C9, C10 — properties of `repeat_line` -/

/-- C1. For every string `line` and every integer `times ≥ 0`,
`repeat_line(line, times, delay, "enter")` issues exactly `times`
submit-key actions, each a plain press of `"enter"`, and exactly
`times * len(line)` character-type actions (zero of both when
`times = 0`). -/
theorem repeat_line_enter_counts (line : String) (times : Int) (delay : ℚ)
    (h : 0 ≤ times) :
    ((times.toNat : Int) = times) ∧
    (repeat_line line times delay "enter").filter isSubmitAction =
      List.replicate times.toNat (Event.press "enter") ∧
    (repeat_line line times delay "enter").countP isCharAction =
      times.toNat * line.length := by
  refine ⟨Int.toNat_of_nonneg h, ?_, ?_⟩
  · rw [repeat_line, flatMap_range_const, filter_flatten_replicate]
    have hbody : (((line.data.map fun c => Event.typeChar c (1/10)) ++
        (if ("enter" : String) = "enter" then [Event.press "enter"]
         else if ("enter" : String) = "shift+enter" then
           [Event.hotkey "shift" "enter"] else []) ++
        [Event.sleep delay]).filter isSubmitAction) = [Event.press "enter"] := by
      simp [List.filter_append, filter_submit_char_map, isSubmitAction]
    rw [hbody, flatten_replicate_singleton]
  · rw [repeat_line, flatMap_range_const, countP_flatten_replicate]
    congr 1
    rw [List.countP_append, List.countP_append, countP_char_map]
    simp [isCharAction, string_data_length]

/-- Witness for C1 at `line = "ab"`, `times = 3`, `delay = 0`. -/
theorem repeat_line_enter_counts_witness :
    (0 : Int) ≤ 3 ∧
    ((((3 : Int).toNat : Int) = 3) ∧
     (repeat_line "ab" 3 0 "enter").filter isSubmitAction =
       List.replicate (3 : Int).toNat (Event.press "enter") ∧
     (repeat_line "ab" 3 0 "enter").countP isCharAction =
       (3 : Int).toNat * ("ab" : String).length) :=
  ⟨by decide, repeat_line_enter_counts "ab" 3 0 (by decide)⟩

/-- C4. With `key = "shift+enter"` and `times ≥ 1`, every iteration's
submit action is the combined hotkey `shift`+`enter` (the submit actions
of the whole run are exactly `times` hotkeys), and no plain `enter`
press is ever issued. -/
theorem repeat_line_shift_enter_hotkey (line : String) (times : Int)
    (delay : ℚ) (h : 1 ≤ times) :
    (repeat_line line times delay "shift+enter").filter isSubmitAction =
      List.replicate times.toNat (Event.hotkey "shift" "enter") ∧
    (repeat_line line times delay "shift+enter").countP isPressEnter = 0 := by
  constructor
  · rw [repeat_line, flatMap_range_const, filter_flatten_replicate]
    have hbody : (((line.data.map fun c => Event.typeChar c (1/10)) ++
        (if ("shift+enter" : String) = "enter" then [Event.press "enter"]
         else if ("shift+enter" : String) = "shift+enter" then
           [Event.hotkey "shift" "enter"] else []) ++
        [Event.sleep delay]).filter isSubmitAction) =
        [Event.hotkey "shift" "enter"] := by
      simp [List.filter_append, filter_submit_char_map, isSubmitAction]
    rw [hbody, flatten_replicate_singleton]
  · rw [repeat_line, flatMap_range_const, countP_flatten_replicate]
    simp [List.countP_append, countP_press_char_map, isPressEnter]

/-- Witness for C4 at `line = "a"`, `times = 2`, `delay = 1/2`. -/
theorem repeat_line_shift_enter_hotkey_witness :
    (1 : Int) ≤ 2 ∧
    ((repeat_line "a" 2 (1/2) "shift+enter").filter isSubmitAction =
       List.replicate (2 : Int).toNat (Event.hotkey "shift" "enter") ∧
     (repeat_line "a" 2 (1/2) "shift+enter").countP isPressEnter = 0) :=
  ⟨by decide, repeat_line_shift_enter_hotkey "a" 2 (1/2) (by decide)⟩

/-- C9. For any key other than `"enter"` and `"shift+enter"`,
`repeat_line` still types the characters of `line` exactly `times`
times but issues no submit-key action at all, without failing. -/
theorem repeat_line_other_key_no_submit (line : String) (times : Int)
    (delay : ℚ) (key : String) (h0 : 0 ≤ times) (h1 : key ≠ "enter")
    (h2 : key ≠ "shift+enter") :
    (repeat_line line times delay key).countP isCharAction =
      times.toNat * line.length ∧
    (repeat_line line times delay key).countP isSubmitAction = 0 := by
  constructor
  · rw [repeat_line, flatMap_range_const, countP_flatten_replicate]
    congr 1
    rw [List.countP_append, List.countP_append, countP_char_map,
      if_neg h1, if_neg h2]
    simp [isCharAction, string_data_length]
  · rw [repeat_line, flatMap_range_const, countP_flatten_replicate]
    rw [List.countP_append, List.countP_append, countP_submit_char_map,
      if_neg h1, if_neg h2]
    simp [isSubmitAction]

/-- Witness for C9 at `key = "tab"`, `line = "ab"`, `times = 2`. -/
theorem repeat_line_other_key_no_submit_witness :
    ((0 : Int) ≤ 2 ∧ ("tab" : String) ≠ "enter" ∧
     ("tab" : String) ≠ "shift+enter") ∧
    ((repeat_line "ab" 2 0 "tab").countP isCharAction =
       (2 : Int).toNat * ("ab" : String).length ∧
     (repeat_line "ab" 2 0 "tab").countP isSubmitAction = 0) :=
  ⟨⟨by decide, by decide, by decide⟩,
   repeat_line_other_key_no_submit "ab" 2 0 "tab" (by decide) (by decide)
     (by decide)⟩

/-- C10. For every negative `times`, `repeat_line` performs no action of
any kind (the trace is empty: no typing, no submit, no sleep) and
returns normally. -/
theorem repeat_line_negative_times_empty (line : String) (times : Int)
    (delay : ℚ) (key : String) (h : times < 0) :
    repeat_line line times delay key = [] := by
  rw [repeat_line, Int.toNat_of_nonpos (le_of_lt h)]
  simp

/-- Witness for C10 at `times = -1`. -/
theorem repeat_line_negative_times_empty_witness :
    (-1 : Int) < 0 ∧ repeat_line "ab" (-1) (1/2) "enter" = [] :=
  ⟨by decide, repeat_line_negative_times_empty "ab" (-1) (1/2) "enter"
    (by decide)⟩

/-! ## Helper lemmas on `interIterationDelays` -/

lemma interIterationDelays_chars_append (chars : List Char) (r : ℚ)
    (l : List Event) :
    interIterationDelays ((chars.map fun c => Event.typeChar c r) ++ l) =
      interIterationDelays l := by
  induction chars with
  | nil => rfl
  | cons c cs ih => simp [interIterationDelays, isSubmitAction, ih]

lemma interIterationDelays_typed_body (chars : List Char) (r d : ℚ) (n : Nat) :
    interIterationDelays
      ((List.replicate n ((chars.map fun c => Event.typeChar c r) ++
        [Event.hotkey "shift" "enter", Event.sleep d])).flatten) =
      List.replicate n d := by
  induction n with
  | zero => rfl
  | succ n ih =>
      rw [List.replicate_succ, List.flatten_cons, List.append_assoc,
        interIterationDelays_chars_append]
      simp [interIterationDelays, isSubmitAction, ih, List.replicate_succ]

/-- In the repeat phase with key `"shift+enter"`, the delay slept after
each submit action is the `delay` argument, once per iteration. -/
lemma interIterationDelays_repeat_line (line : String) (d : ℚ) (t : Int) :
    interIterationDelays (repeat_line line t d "shift+enter") =
      List.replicate t.toNat d := by
  have hkey : (if ("shift+enter" : String) = "enter" then [Event.press "enter"]
      else if ("shift+enter" : String) = "shift+enter" then
        [Event.hotkey "shift" "enter"] else []) =
      [Event.hotkey "shift" "enter"] := by decide
  rw [repeat_line, flatMap_range_const, hkey, List.append_assoc,
    List.singleton_append, interIterationDelays_typed_body]

/-! ## C2, C3, C5 — the orchestration on each class of user input -/

/-- C2. Cancelling either prompt, or submitting it with empty text,
terminates the process (the trace ends at `sys.exit`) without
`repeat_line` ever being invoked: no character-type or submit-key action
occurs anywhere in the trace. -/
theorem cancel_or_empty_no_repeat (a1 a2 : UserAction) (w : ℚ)
    (h : cancelsPrompt a1 = true ∨ cancelsPrompt a2 = true) :
    (line_repeater a1 a2 w).getLast? = some Event.sysExit ∧
    (line_repeater a1 a2 w).countP isKeystroke = 0 := by
  cases a1 with
  | cancel =>
      refine ⟨?_, ?_⟩ <;>
        simp [line_repeater, get_input_from_tk_window, cancel_click,
          List.getLast?_cons_cons, List.countP_cons, isKeystroke,
          isCharAction, isSubmitAction]
  | submit s =>
      by_cases hs : s = ""
      · subst hs
        refine ⟨?_, ?_⟩ <;>
          simp [line_repeater, get_input_from_tk_window, submit_click,
            cancel_click, List.getLast?_cons_cons, List.countP_cons,
            isKeystroke, isCharAction, isSubmitAction]
      · have h2 : cancelsPrompt a2 = true := by
          rcases h with h | h
          · simp [cancelsPrompt, hs] at h
          · exact h
        cases a2 with
        | cancel =>
            refine ⟨?_, ?_⟩ <;>
              simp [line_repeater, get_input_from_tk_window, submit_click,
                cancel_click, hs, List.getLast?_cons_cons, List.countP_cons,
                isKeystroke, isCharAction, isSubmitAction]
        | submit t =>
            have ht : t = "" := by simpa [cancelsPrompt] using h2
            subst ht
            refine ⟨?_, ?_⟩ <;>
              simp [line_repeater, get_input_from_tk_window, submit_click,
                cancel_click, hs, List.getLast?_cons_cons, List.countP_cons,
                isKeystroke, isCharAction, isSubmitAction]

/-- Witness for C2: first prompt cancelled, second would have submitted
`"x"`; countdown 7. -/
theorem cancel_or_empty_no_repeat_witness :
    (cancelsPrompt UserAction.cancel = true ∨
     cancelsPrompt (UserAction.submit "x") = true) ∧
    ((line_repeater UserAction.cancel (UserAction.submit "x") 7).getLast? =
       some Event.sysExit ∧
     (line_repeater UserAction.cancel (UserAction.submit "x") 7).countP
       isKeystroke = 0) :=
  ⟨Or.inl (by decide),
   cancel_or_empty_no_repeat UserAction.cancel (UserAction.submit "x") 7
     (Or.inl (by decide))⟩

/-- C3. When both prompts are submitted with non-empty text and the
count string parses as the integer `n`, the orchestration performs
exactly: the line prompt, the count prompt, one informational message
box embedding the literal count string, the countdown sleep, and then
`repeat_line` with the parsed count, delay `0.5`, key
`"shift+enter"`. -/
theorem line_repeater_sequence (line times : String) (w : ℚ) (n : Int)
    (hl : line ≠ "") (ht : times ≠ "") (hn : str_to_int times = some n) :
    line_repeater (.submit line) (.submit times) w =
      [ Event.openPrompt "Line Repeator" "Enter the line:",
        Event.destroyWidget "res", Event.destroyWidget "b1",
        Event.destroyWidget "b2",
        Event.setStatus ("Submitted value: " ++ line), Event.update,
        Event.sleep 2, Event.destroyRoot,
        Event.openPrompt "Line Repeator"
          "Enter the number of times to be repeated:",
        Event.destroyWidget "res", Event.destroyWidget "b1",
        Event.destroyWidget "b2",
        Event.setStatus ("Submitted value: " ++ times), Event.update,
        Event.sleep 2, Event.destroyRoot,
        Event.showInfo "Line Repeator"
          ("The line will be repeated " ++ times ++
           " times. Please switch to the target application and click on the text box to start the process in " ++
           toString w ++ " Seconds."),
        Event.sleep w ] ++ repeat_line line n (1/2) "shift+enter" := by
  simp [line_repeater, get_input_from_tk_window, submit_click, hl, ht, hn]

/-- Witness for C3 at `line = "hello"`, `times = "3"`, countdown 7. -/
theorem line_repeater_sequence_witness :
    (("hello" : String) ≠ "" ∧ ("3" : String) ≠ "" ∧
     str_to_int "3" = some 3) ∧
    line_repeater (.submit "hello") (.submit "3") 7 =
      [ Event.openPrompt "Line Repeator" "Enter the line:",
        Event.destroyWidget "res", Event.destroyWidget "b1",
        Event.destroyWidget "b2",
        Event.setStatus ("Submitted value: " ++ "hello"), Event.update,
        Event.sleep 2, Event.destroyRoot,
        Event.openPrompt "Line Repeator"
          "Enter the number of times to be repeated:",
        Event.destroyWidget "res", Event.destroyWidget "b1",
        Event.destroyWidget "b2",
        Event.setStatus ("Submitted value: " ++ "3"), Event.update,
        Event.sleep 2, Event.destroyRoot,
        Event.showInfo "Line Repeator"
          ("The line will be repeated " ++ "3" ++
           " times. Please switch to the target application and click on the text box to start the process in " ++
           toString (7 : ℚ) ++ " Seconds."),
        Event.sleep 7 ] ++ repeat_line "hello" 3 (1/2) "shift+enter" :=
  ⟨⟨by decide, by decide, by decide⟩,
   line_repeater_sequence "hello" "3" 7 3 (by decide) (by decide) (by decide)⟩

/-- C5. When the count prompt submits a non-numeric string, the
orchestration shows the acknowledgment, sleeps the countdown, and then
crashes with the uncaught integer-conversion error; `repeat_line` is
never invoked (no keystroke of any kind in the trace). -/
theorem nonnumeric_count_crashes (line times : String) (w : ℚ)
    (hl : line ≠ "") (ht : times ≠ "") (hn : str_to_int times = none) :
    line_repeater (.submit line) (.submit times) w =
      [ Event.openPrompt "Line Repeator" "Enter the line:",
        Event.destroyWidget "res", Event.destroyWidget "b1",
        Event.destroyWidget "b2",
        Event.setStatus ("Submitted value: " ++ line), Event.update,
        Event.sleep 2, Event.destroyRoot,
        Event.openPrompt "Line Repeator"
          "Enter the number of times to be repeated:",
        Event.destroyWidget "res", Event.destroyWidget "b1",
        Event.destroyWidget "b2",
        Event.setStatus ("Submitted value: " ++ times), Event.update,
        Event.sleep 2, Event.destroyRoot,
        Event.showInfo "Line Repeator"
          ("The line will be repeated " ++ times ++
           " times. Please switch to the target application and click on the text box to start the process in " ++
           toString w ++ " Seconds."),
        Event.sleep w, Event.valueError ] ∧
    (line_repeater (.submit line) (.submit times) w).countP isKeystroke =
      0 := by
  refine ⟨?_, ?_⟩ <;>
    simp [line_repeater, get_input_from_tk_window, submit_click, hl, ht, hn,
      List.countP_cons, isKeystroke, isCharAction, isSubmitAction]

/-- Witness for C5 at `line = "hello"`, `times = "abc"`, countdown 7. -/
theorem nonnumeric_count_crashes_witness :
    (("hello" : String) ≠ "" ∧ ("abc" : String) ≠ "" ∧
     str_to_int "abc" = none) ∧
    (line_repeater (.submit "hello") (.submit "abc") 7 =
      [ Event.openPrompt "Line Repeator" "Enter the line:",
        Event.destroyWidget "res", Event.destroyWidget "b1",
        Event.destroyWidget "b2",
        Event.setStatus ("Submitted value: " ++ "hello"), Event.update,
        Event.sleep 2, Event.destroyRoot,
        Event.openPrompt "Line Repeator"
          "Enter the number of times to be repeated:",
        Event.destroyWidget "res", Event.destroyWidget "b1",
        Event.destroyWidget "b2",
        Event.setStatus ("Submitted value: " ++ "abc"), Event.update,
        Event.sleep 2, Event.destroyRoot,
        Event.showInfo "Line Repeator"
          ("The line will be repeated " ++ "abc" ++
           " times. Please switch to the target application and click on the text box to start the process in " ++
           toString (7 : ℚ) ++ " Seconds."),
        Event.sleep 7, Event.valueError ] ∧
     (line_repeater (.submit "hello") (.submit "abc") 7).countP isKeystroke =
       0) :=
  ⟨⟨by decide, by decide, by decide⟩,
   nonnumeric_count_crashes "hello" "abc" 7 (by decide) (by decide)
     (by decide)⟩

/-! ## C6, C7 — the delay parameters -/

/-- C6 counterexample. Invoking `line_repeater` without an explicit
argument (here on concrete prompt responses `"a"` and `"1"`) sleeps the
10-second default countdown and never sleeps 7 seconds: the default is
10, not 7. -/
theorem line_repeater_default_not_seven :
    Event.sleep 10 ∈ line_repeater (.submit "a") (.submit "1") ∧
    Event.sleep 7 ∉ line_repeater (.submit "a") (.submit "1") := by
  have h : str_to_int "1" = some 1 := by decide
  constructor <;>
    simp [line_repeater, get_input_from_tk_window, submit_click, h,
      repeat_line, cancel_click] <;> norm_num

/-- C6 amended. Invoking `line_repeater` without an explicit argument is
the same as passing a 10-second countdown; the `__main__` entry point
overrides it, explicitly passing 7 seconds. -/
theorem line_repeater_default_is_ten (a1 a2 : UserAction) :
    line_repeater a1 a2 = line_repeater a1 a2 10 ∧
    main_trace a1 a2 = line_repeater a1 a2 7 :=
  ⟨rfl, rfl⟩

/-- C7 counterexample. Changing the orchestration's only configurable
argument changes the countdown (a 3-second invocation sleeps 3 and
never 9; a 9-second invocation sleeps 9 and never 3) but leaves the
inter-iteration delay at `0.5` in both invocations: a caller of the
orchestration cannot override that delay. -/
theorem orchestration_delay_not_overridable :
    interIterationDelays (line_repeater (.submit "a") (.submit "2") 3) =
      [1/2, 1/2] ∧
    interIterationDelays (line_repeater (.submit "a") (.submit "2") 9) =
      [1/2, 1/2] ∧
    Event.sleep 3 ∈ line_repeater (.submit "a") (.submit "2") 3 ∧
    Event.sleep 3 ∉ line_repeater (.submit "a") (.submit "2") 9 ∧
    Event.sleep 9 ∈ line_repeater (.submit "a") (.submit "2") 9 := by
  have h : str_to_int "2" = some 2 := by decide
  refine ⟨?_, ?_, ?_, ?_, ?_⟩ <;>
    simp [line_repeater, get_input_from_tk_window, submit_click, h,
      repeat_line, cancel_click, interIterationDelays, isSubmitAction] <;>
    norm_num

/-- C7 amended. Per invocation of the orchestration, the pre-start
countdown is overridable (the countdown sleep is exactly the
`wait_before_start` argument) but the inter-iteration delay is not: the
orchestration hardcodes `0.5` at its `repeat_line` call site, so the
delay after each of the `n` submit actions is `0.5` whatever the caller
passes. -/
theorem countdown_overridable_delay_hardcoded (line times : String)
    (w : ℚ) (n : Int) (hl : line ≠ "") (ht : times ≠ "")
    (hn : str_to_int times = some n) :
    Event.sleep w ∈ line_repeater (.submit line) (.submit times) w ∧
    interIterationDelays (line_repeater (.submit line) (.submit times) w) =
      List.replicate n.toNat (1/2 : ℚ) := by
  constructor
  · simp [line_repeater, get_input_from_tk_window, submit_click, hl, ht, hn]
  · simp [line_repeater, get_input_from_tk_window, submit_click, hl, ht, hn,
      interIterationDelays, isSubmitAction, interIterationDelays_repeat_line]

/-- Witness for the amended C7 at `line = "hi"`, `times = "3"`,
countdown 9. -/
theorem countdown_overridable_delay_hardcoded_witness :
    (("hi" : String) ≠ "" ∧ ("3" : String) ≠ "" ∧
     str_to_int "3" = some 3) ∧
    (Event.sleep 9 ∈ line_repeater (.submit "hi") (.submit "3") 9 ∧
     interIterationDelays (line_repeater (.submit "hi") (.submit "3") 9) =
       List.replicate (3 : Int).toNat (1/2 : ℚ)) :=
  ⟨⟨by decide, by decide, by decide⟩,
   countdown_overridable_delay_hardcoded "hi" "3" 9 3 (by decide) (by decide)
     (by decide)⟩

/-! ## C8 — the cancel path of the prompt -/

/-- C8. On cancel, the dialog displays the "Exiting Application..."
status, then waits the fixed 2-second display delay, then destroys the
dialog and then terminates the process, in that order; termination is
the last thing the handler does. -/
theorem cancel_click_order :
    List.Sublist [Event.setStatus "Exiting Application...", Event.sleep 2,
      Event.destroyRoot, Event.sysExit] cancel_click ∧
    cancel_click.getLast? = some Event.sysExit := by decide
